import Mathlib

/-!
Verification of the `moors` genetic-algorithm orchestration engine
(`src/moors/src/algorithms/ga.rs`).

The engine is embedded shallowly: matrices are row lists with an intrinsic
column count (mirroring `ndarray::Array2` shape semantics), the external
operator collaborators (evolve pipeline, evaluator, survival operator,
initialization) are abstract functions bundled in an `Env`, the random
generator is an abstract state threaded through the operators that take
`&mut rng`, and the observer callback is an arbitrary state-transition
function threaded through the loop.  Rust panics (`unwrap`, `assert_eq!`,
`expect`) are modelled as an explicit `panicked` outcome carrying the
panic message.
-/

namespace Moors

/-- A two-dimensional matrix as in `ndarray::Array2`: a row list together
with an intrinsic column count (part of the shape even when there are no
rows). -/
structure Matrix (α : Type) where
  ncols : Nat
  rows : List (List α)
deriving DecidableEq

/-- Number of rows of a matrix. -/
def Matrix.nrows {α : Type} (m : Matrix α) : Nat :=
  m.rows.length

/-- The engine's `concatenate(Axis(0), &[a.view(), b.view()])`: stacks the
rows of `b` beneath the rows of `a`; `ndarray` fails (and the engine's
`.expect` panics) when the column counts differ. -/
def concatAxis0 {α : Type} (a b : Matrix α) : Option (Matrix α) :=
  if a.ncols = b.ncols then some ⟨a.ncols, a.rows ++ b.rows⟩ else none

/-- Population data model: decision-variable matrix, fitness matrix and an
optional constraint matrix (`src/moors/src/algorithms/ga.rs` only reads
`genes` and `fitness`). -/
structure Population (α : Type) where
  genes : Matrix α
  fitness : Matrix α
  constraints : Option (Matrix α)
deriving DecidableEq

/-- Read-only per-iteration view handed to the observer callback
(`IterationData` in `ga.rs`). -/
structure IterationData (α : Type) where
  iteration : Nat
  population : Population α
deriving DecidableEq

/-- Run parameters of the engine.  Modelled from the spec: the
`AlgorithmContext` helper lives outside `src/`; the spec lists its fields as
`population_size`, `num_offsprings`, `num_vars`, `num_iterations` and
`current_iteration` (mutated once per completed generation). -/
structure AlgorithmContext where
  population_size : Nat
  num_offsprings : Nat
  num_vars : Nat
  num_iterations : Nat
  current_iteration : Nat
deriving DecidableEq

/-- Modelled from the spec: the `set_current_iteration` helper (outside
`src/`) records the given loop index into the context's
`current_iteration` field. -/
def AlgorithmContext.set_current_iteration (ctx : AlgorithmContext) (i : Nat) :
    AlgorithmContext :=
  { ctx with current_iteration := i }

/-- Errors of the evolve pipeline.  `EmptyMatingResult` is the distinguished
variant matched in `ga.rs`; `other` stands for any further evolve failure
(modelled from the spec, which only distinguishes `EmptyMatingResult`). -/
inductive EvolveError where
  | emptyMatingResult : EvolveError
  | other : Nat → EvolveError
deriving DecidableEq

/-- Modelled from the spec: an evaluation failure — the fitness or constraint
function returned a shape inconsistent with the input row count. -/
inductive EvaluatorError where
  | shapeError : Nat → EvaluatorError
deriving DecidableEq

/-- Modelled from the spec: initial sampling/deduplication produced zero
usable individuals. -/
inductive InitializationError where
  | emptyInitialPopulation : InitializationError
deriving DecidableEq

/-- The engine-level error type; `ga.rs` matches on the `Evolve` variant and
converts operator errors into it via `Into`. -/
inductive AlgorithmError where
  | evolve : EvolveError → AlgorithmError
  | evaluator : EvaluatorError → AlgorithmError
  | initialization : InitializationError → AlgorithmError
deriving DecidableEq

/-- Mutable state of `GeneticAlgorithm`: the optional current population, the
run context, the verbosity flag and the random generator (abstract state
`σ`).  The operator fields of the Rust struct are behaviourally captured by
`Env`. -/
structure GAState (α σ : Type) where
  population : Option (Population α)
  context : AlgorithmContext
  verbose : Bool
  rng : σ
deriving DecidableEq

/-- The external operator collaborators consumed by the engine, as abstract
functions.  Operators taking `&mut rng` in Rust are modelled as returning the
updated generator state even on failure. -/
structure Env (α σ : Type) where
  evolve : Population α → Nat → Nat → σ → Except EvolveError (Matrix α) × σ
  evaluate : Matrix α → Except EvaluatorError (Population α)
  survive : Population α → Nat → σ → Population α × σ
  initialization : AlgorithmContext → σ → Except InitializationError (Population α) × σ

/-- Outcome of one `next()` call: success, an engine error, or a Rust panic
(with its message), each together with the engine state at that point. -/
inductive NextResult (α σ : Type) where
  | ok : GAState α σ → NextResult α σ
  | err : AlgorithmError → GAState α σ → NextResult α σ
  | panicked : String → GAState α σ → NextResult α σ
deriving DecidableEq

/-- The state carried by a `NextResult`, whatever the outcome. -/
def NextResult.state {α σ : Type} : NextResult α σ → GAState α σ
  | .ok st => st
  | .err _ st => st
  | .panicked _ st => st

/-- Panic message of `self.population.as_ref().unwrap()` on an absent
population. -/
def unwrapMsg : String :=
  "called unwrap on a None value"

/-- Panic message of the `assert_eq!` on the offspring column count in
`next()`. -/
def assertMsg : String :=
  "Number of columns in offspring_genes does not match num_vars"

/-- Panic message of the `.expect` on the row concatenation in `next()`. -/
def concatMsg : String :=
  "Failed to concatenate current population genes with offspring genes"

/-- One generation step, `GeneticAlgorithm::next`, with the `max_attempts`
argument of the evolve call kept as a parameter: unwrap the current
population, evolve it into offspring genes (propagating evolve errors),
assert the offspring column count equals `num_vars`, concatenate the current
genes with the offspring genes (existing rows first), evaluate the combined
matrix (propagating evaluation errors), select survivors with target
`population_size`, and store them as the new population. -/
def nextWithAttempts {α σ : Type} (env : Env α σ) (maxAttempts : Nat)
    (st : GAState α σ) : NextResult α σ :=
  match st.population with
  | none => .panicked unwrapMsg st
  | some refPop =>
    match env.evolve refPop st.context.num_offsprings maxAttempts st.rng with
    | (.error e, rng1) => .err (.evolve e) { st with rng := rng1 }
    | (.ok offspring_genes, rng1) =>
      let st1 : GAState α σ := { st with rng := rng1 }
      if offspring_genes.ncols = st.context.num_vars then
        match concatAxis0 refPop.genes offspring_genes with
        | none => .panicked concatMsg st1
        | some combined_genes =>
          match env.evaluate combined_genes with
          | .error e => .err (.evaluator e) st1
          | .ok evaluated_population =>
            let sv := env.survive evaluated_population
              st.context.population_size st1.rng
            .ok { st1 with population := some sv.1, rng := sv.2 }
      else
        .panicked assertMsg st1

/-- `GeneticAlgorithm::next`: the generation step with the hard-coded
`max_attempts` value `200` of `ga.rs` line 93. -/
def next {α σ : Type} (env : Env α σ) (st : GAState α σ) : NextResult α σ :=
  match st.population with
  | none => .panicked unwrapMsg st
  | some refPop =>
    match env.evolve refPop st.context.num_offsprings 200 st.rng with
    | (.error e, rng1) => .err (.evolve e) { st with rng := rng1 }
    | (.ok offspring_genes, rng1) =>
      let st1 : GAState α σ := { st with rng := rng1 }
      if offspring_genes.ncols = st.context.num_vars then
        match concatAxis0 refPop.genes offspring_genes with
        | none => .panicked concatMsg st1
        | some combined_genes =>
          match env.evaluate combined_genes with
          | .error e => .err (.evaluator e) st1
          | .ok evaluated_population =>
            let sv := env.survive evaluated_population
              st.context.population_size st1.rng
            .ok { st1 with population := some sv.1, rng := sv.2 }
      else
        .panicked assertMsg st1

/-- Observable console events of the loop: the verbose cancellation print,
the verbose per-generation progress print, the callback invocation and the
unconditional empty-mating warning. -/
inductive Event where
  | cancelledPrint : Nat → Event
  | progressPrint : Nat → Event
  | callbackCall : Nat → Event
  | warnEmptyMating : Event
deriving DecidableEq

/-- Result value of a whole run: `Ok(())`, `Err(e)`, or a panic. -/
inductive RunOutcome where
  | ok : RunOutcome
  | error : AlgorithmError → RunOutcome
  | panicked : String → RunOutcome
deriving DecidableEq

/-- Result of `run`/`run_cancellable`: the returned value, the final engine
state, the final state of the observer callback's captured environment, and
the emitted console events. -/
structure RunResult (α σ κ : Type) where
  outcome : RunOutcome
  state : GAState α σ
  cbState : κ
  trace : List Event
deriving DecidableEq

/-- The generational loop of `run_cancellable` over the remaining loop
indices.  At the top of each iteration the cancellation token is polled
(`token i` is the value the `Relaxed` atomic load observes at index `i`);
if set, the loop breaks.  Otherwise one generation runs: on success the
verbose printer and the observer callback fire (each unwraps the stored
population) and `current_iteration` is recorded; on `EmptyMatingResult`
the loop warns and breaks; any other error is returned. -/
def runLoop {α σ κ : Type} (env : Env α σ) (token : Nat → Bool)
    (cb : Option (κ → IterationData α → κ)) :
    GAState α σ → κ → List Nat → RunResult α σ κ
  | st, c, [] => ⟨.ok, st, c, []⟩
  | st, c, i :: rest =>
    if token i then
      ⟨.ok, st, c, if st.verbose then [.cancelledPrint i] else []⟩
    else
      match next env st with
      | .ok st1 =>
        match st1.population with
        | none =>
          if st1.verbose then
            ⟨.panicked unwrapMsg, st1, c, []⟩
          else
            match cb with
            | some _ => ⟨.panicked unwrapMsg, st1, c, []⟩
            | none =>
              let st2 : GAState α σ :=
                { st1 with context := st1.context.set_current_iteration i }
              runLoop env token cb st2 c rest
        | some pop =>
          let ev1 : List Event :=
            if st1.verbose then [.progressPrint (i + 1)] else []
          match cb with
          | none =>
            let st2 : GAState α σ :=
              { st1 with context := st1.context.set_current_iteration i }
            let res := runLoop env token cb st2 c rest
            ⟨res.outcome, res.state, res.cbState, ev1 ++ res.trace⟩
          | some f =>
            let c1 := f c ⟨i + 1, pop⟩
            let st2 : GAState α σ :=
              { st1 with context := st1.context.set_current_iteration i }
            let res := runLoop env token cb st2 c1 rest
            ⟨res.outcome, res.state, res.cbState,
              ev1 ++ Event.callbackCall (i + 1) :: res.trace⟩
      | .err (.evolve .emptyMatingResult) st1 =>
        ⟨.ok, st1, c, [.warnEmptyMating]⟩
      | .err e st1 => ⟨.error e, st1, c, []⟩
      | .panicked m st1 => ⟨.panicked m, st1, c, []⟩

/-- `GeneticAlgorithm::run_cancellable`: build the initial population via
`Initialization::initialize`, store it, then run the generational loop over
indices `0 .. num_iterations`. -/
def run_cancellable {α σ κ : Type} (env : Env α σ) (token : Nat → Bool)
    (cb : Option (κ → IterationData α → κ)) (st : GAState α σ) (c : κ) :
    RunResult α σ κ :=
  match env.initialization st.context st.rng with
  | (.error e, rng1) =>
    ⟨.error (.initialization e), { st with rng := rng1 }, c, []⟩
  | (.ok initial_population, rng1) =>
    runLoop env token cb
      { st with population := some initial_population, rng := rng1 } c
      (List.range st.context.num_iterations)

/-- `GeneticAlgorithm::run`: `run_cancellable` with a fresh always-false
token and no callback. -/
def run {α σ : Type} (env : Env α σ) (st : GAState α σ) : RunResult α σ Unit :=
  run_cancellable env (fun _ => false) (none : Option (Unit → IterationData α → Unit)) st ()

/-! Concrete instances (genes over `Nat`, a counter as random-generator
state) used to exercise the theorems on closed inputs. -/

/-- A concrete run context: 2 individuals, 3 offspring, 4 decision
variables, 5 iterations. -/
def ctx0 : AlgorithmContext :=
  ⟨2, 3, 4, 5, 0⟩

/-- A concrete two-individual population with 4 decision variables. -/
def pop0 : Population Nat :=
  ⟨⟨4, [[0, 0, 0, 0], [1, 1, 1, 1]]⟩, ⟨1, [[0], [4]]⟩, none⟩

/-- A concrete engine state holding `pop0`. -/
def st0 : GAState Nat Nat :=
  ⟨some pop0, ctx0, false, 0⟩

/-- A concrete operator bundle: evolve emits the requested number of rows
filled with the generator counter, evaluation sums each row, survival
truncates to the target size. -/
def env0 : Env Nat Nat where
  evolve := fun _ k _ rng =>
    (Except.ok ⟨4, List.replicate k (List.replicate 4 rng)⟩, rng + 1)
  evaluate := fun m =>
    Except.ok ⟨m, ⟨1, m.rows.map fun r => [r.foldl Nat.add 0]⟩, none⟩
  survive := fun pop tgt rng =>
    (⟨⟨pop.genes.ncols, pop.genes.rows.take tgt⟩,
      ⟨pop.fitness.ncols, pop.fitness.rows.take tgt⟩, none⟩, rng + 7)
  initialization := fun _ rng => (Except.ok pop0, rng + 1)

/-- The offspring matrix `env0.evolve` produces from `st0`. -/
def off0 : Matrix Nat :=
  ⟨4, List.replicate 3 (List.replicate 4 0)⟩

/-- The combined parent+offspring matrix of the first generation of
`env0` from `st0`. -/
def combined0 : Matrix Nat :=
  ⟨4, pop0.genes.rows ++ off0.rows⟩

/-- The evaluated combined population of the first generation of `env0`
from `st0`. -/
def evalPop0 : Population Nat :=
  ⟨combined0, ⟨1, combined0.rows.map fun r => [r.foldl Nat.add 0]⟩, none⟩

/-- A bundle whose evolve stage always fails with `EmptyMatingResult`. -/
def envEmptyMating : Env Nat Nat :=
  { env0 with evolve := fun _ _ _ rng =>
      (Except.error EvolveError.emptyMatingResult, rng + 1) }

/-- A bundle whose evolve stage always fails with a non-distinguished
error. -/
def envOtherError : Env Nat Nat :=
  { env0 with evolve := fun _ _ _ rng =>
      (Except.error (EvolveError.other 7), rng + 1) }

/-- A bundle whose evolve stage returns matrices with 3 columns (violating
`num_vars = 4` of `ctx0`). -/
def envBadCols : Env Nat Nat :=
  { env0 with evolve := fun _ k _ rng =>
      (Except.ok ⟨3, List.replicate k (List.replicate 3 rng)⟩, rng + 1) }

/-- A bundle whose evaluation stage always fails. -/
def envEvalFail : Env Nat Nat :=
  { env0 with evaluate := fun _ => Except.error (EvaluatorError.shapeError 1) }

/-- A recording callback: appends each reported iteration number to a
list. -/
def recordCb : List Nat → IterationData Nat → List Nat :=
  fun acc d => acc ++ [d.iteration]

/-- The survivor population `env0.survive` selects from `evalPop0` with
target size 2. -/
def survPop0 : Population Nat :=
  ⟨⟨4, combined0.rows.take 2⟩,
   ⟨1, (combined0.rows.map fun r => [r.foldl Nat.add 0]).take 2⟩, none⟩

/-- The engine state after one successful generation of `env0` from
`st0`. -/
def stepSt0 : GAState Nat Nat :=
  ⟨some survPop0, ctx0, false, 8⟩

/-- A bundle whose survival operator returns exactly the target number of
individuals, as the survival contract demands. -/
def envExact : Env Nat Nat :=
  { env0 with survive := fun pop tgt rng =>
      (⟨⟨pop.genes.ncols, List.replicate tgt (List.replicate pop.genes.ncols 0)⟩,
        ⟨1, List.replicate tgt [0]⟩, none⟩, rng + 7) }

/-- The population stored after one successful generation of `envExact`
from `st0`. -/
def exactPop0 : Population Nat :=
  ⟨⟨4, List.replicate 2 (List.replicate 4 0)⟩, ⟨1, List.replicate 2 [0]⟩, none⟩

/-- An evolve operator that agrees with `env0.evolve` at `max_attempts =
200` and differs everywhere else. -/
def evolveAlt : Population Nat → Nat → Nat → Nat →
    Except EvolveError (Matrix Nat) × Nat :=
  fun p k m rng =>
    if m = 200 then env0.evolve p k m rng
    else (Except.error (EvolveError.other 99), rng)

/-! Helper lemmas about one generation step. -/

/-- A generation step never touches the run context or the verbosity flag,
whatever its outcome. -/
theorem next_state_fields {α σ : Type} (env : Env α σ) (st : GAState α σ) :
    (next env st).state.context = st.context ∧
      (next env st).state.verbose = st.verbose := by
  unfold next
  repeat' split
  all_goals simp [NextResult.state]

/-- A successful generation step always leaves a stored population. -/
theorem next_ok_population_isSome {α σ : Type} (env : Env α σ)
    (st st1 : GAState α σ) (h : next env st = .ok st1) :
    st1.population.isSome := by
  unfold next at h
  repeat' split at h
  all_goals cases h
  all_goals simp

/-- C1: one generation step evolves the current population into offspring
genes, concatenates the offspring rows beneath the current rows, evaluates
the combined matrix, invokes survival with target `population_size` and
stores the survivors; the combined matrix has `current rows + offspring
rows` rows, hence `population_size + num_offsprings` rows when evolve
returned `num_offsprings` rows and the population had `population_size`
rows. -/
theorem next_generation_pipeline {α σ : Type} (env : Env α σ)
    (st : GAState α σ) (refPop : Population α) (off : Matrix α) (rng1 : σ)
    (evalPop : Population α)
    (hpop : st.population = some refPop)
    (hev : env.evolve refPop st.context.num_offsprings 200 st.rng =
      (Except.ok off, rng1))
    (hoc : off.ncols = st.context.num_vars)
    (hpc : refPop.genes.ncols = st.context.num_vars)
    (heval : env.evaluate ⟨refPop.genes.ncols, refPop.genes.rows ++ off.rows⟩ =
      Except.ok evalPop) :
    next env st =
      NextResult.ok { st with
        population := some (env.survive evalPop st.context.population_size rng1).1,
        rng := (env.survive evalPop st.context.population_size rng1).2 }
    ∧ (Matrix.mk refPop.genes.ncols (refPop.genes.rows ++ off.rows)).nrows
        = refPop.genes.nrows + off.nrows
    ∧ (off.nrows = st.context.num_offsprings →
       refPop.genes.nrows = st.context.population_size →
       (Matrix.mk refPop.genes.ncols (refPop.genes.rows ++ off.rows)).nrows
         = st.context.population_size + st.context.num_offsprings) := by
  refine ⟨?_, ?_, ?_⟩
  · simp only [next, hpop, hev]
    rw [if_pos hoc]
    simp only [concatAxis0]
    rw [if_pos (hpc.trans hoc.symm)]
    simp only [heval]
  · simp [Matrix.nrows]
  · intro h1 h2
    simp only [Matrix.nrows] at h1 h2 ⊢
    simp only [List.length_append]
    omega

/-- C5: whenever the survival operator honours its contract of returning
exactly the target number of individuals, every successful generation step
stores a population with exactly `population_size` rows. -/
theorem next_population_size_invariant {α σ : Type} (env : Env α σ)
    (hsur : ∀ (p : Population α) (t : Nat) (r : σ),
      ((env.survive p t r).1).genes.nrows = t)
    (st st1 : GAState α σ) (h : next env st = .ok st1) :
    ∃ p, st1.population = some p ∧
      p.genes.nrows = st.context.population_size := by
  unfold next at h
  repeat' split at h
  all_goals cases h
  all_goals exact ⟨_, rfl, hsur _ _ _⟩

/-- C6: the offspring column-count assertion of `next()` — when evolve
succeeds with a matrix whose column count differs from `num_vars`, the step
panics immediately at the assertion; under the precondition that every
successful evolve result has `num_vars` columns, the assertion-failure
branch is unreachable. -/
theorem next_offspring_ncols_assertion {α σ : Type} (env : Env α σ) :
    (∀ (st : GAState α σ) refPop off rng1, st.population = some refPop →
      env.evolve refPop st.context.num_offsprings 200 st.rng =
        (Except.ok off, rng1) →
      off.ncols ≠ st.context.num_vars →
      next env st = .panicked assertMsg { st with rng := rng1 })
    ∧ (∀ st : GAState α σ,
      (∀ p k m rng off rng2, env.evolve p k m rng = (Except.ok off, rng2) →
        off.ncols = st.context.num_vars) →
      ∀ st2, next env st ≠ .panicked assertMsg st2) := by
  constructor
  · intro st refPop off rng1 hpop hev hne
    simp only [next, hpop, hev]
    rw [if_neg hne]
  · intro st hyp st2 hcon
    rcases hp : st.population with _ | refPop
    · simp only [next, hp] at hcon
      injection hcon with h1
      exact absurd h1 (by decide)
    · rcases hev : env.evolve refPop st.context.num_offsprings 200 st.rng with
        ⟨res, rng1⟩
      rcases res with e | off
      · simp only [next, hp, hev] at hcon
        cases hcon
      · have hnc : off.ncols = st.context.num_vars := hyp _ _ _ _ _ _ hev
        simp only [next, hp, hev] at hcon
        rw [if_pos hnc] at hcon
        rcases hcc : concatAxis0 refPop.genes off with _ | comb
        · rw [hcc] at hcon
          injection hcon with h1
          exact absurd h1 (by decide)
        · rw [hcc] at hcon
          rcases hevl : env.evaluate comb with e | p
          · simp only [hevl] at hcon
            cases hcon
          · simp only [hevl] at hcon
            cases hcon

/-- A failing generation step leaves the stored population, the context and
the verbosity flag untouched. -/
theorem next_err_preserves_state {α σ : Type} (env : Env α σ)
    (st st1 : GAState α σ) (e : AlgorithmError) (h : next env st = .err e st1) :
    st1.population = st.population ∧ st1.context = st.context ∧
      st1.verbose = st.verbose := by
  unfold next at h
  repeat' split at h
  all_goals cases h
  all_goals exact ⟨rfl, rfl, rfl⟩

/-- C10: the generation step invokes the evolve pipeline with the
`max_attempts` argument fixed at the hard-coded constant `200` and the
offspring count taken from the context: `next` is the instance of the
parameterised step at `200`, and its behaviour depends on the evolve
operator only through its value at `num_offsprings` and `200`. -/
theorem next_hardcoded_max_attempts {α σ : Type} :
    (∀ (env : Env α σ) (st : GAState α σ),
      next env st = nextWithAttempts env 200 st)
    ∧ (∀ (env : Env α σ)
      (e2 : Population α → Nat → Nat → σ → Except EvolveError (Matrix α) × σ)
      (st : GAState α σ),
      (∀ p rng, e2 p st.context.num_offsprings 200 rng =
        env.evolve p st.context.num_offsprings 200 rng) →
      next { env with evolve := e2 } st = next env st) := by
  constructor
  · intro env st
    rfl
  · intro env e2 st h
    rcases hp : st.population with _ | refPop
    · simp only [next, hp]
    · simp only [next, hp, h refPop st.rng]

/-! Helper lemmas about the generational loop. -/

/-- The loop only ever records loop indices at which the token was observed
unset: if all such indices are at most `k` and the incoming
`current_iteration` is at most `k`, the final `current_iteration` is at most
`k`. -/
theorem runLoop_current_le {α σ κ : Type} (env : Env α σ) (token : Nat → Bool)
    (cb : Option (κ → IterationData α → κ)) (k : Nat) :
    ∀ (l : List Nat) (st : GAState α σ) (c : κ),
      st.context.current_iteration ≤ k →
      (∀ i ∈ l, token i = false → i ≤ k) →
      (runLoop env token cb st c l).state.context.current_iteration ≤ k := by
  intro l
  induction l with
  | nil => intro st c hst _; simpa [runLoop] using hst
  | cons i rest ih =>
    intro st c hst hl
    by_cases ht : token i
    · simpa [runLoop, ht] using hst
    · have hik : i ≤ k := hl i (List.mem_cons_self i rest) (by simpa using ht)
      have hrest : ∀ j ∈ rest, token j = false → j ≤ k :=
        fun j hj => hl j (List.mem_cons_of_mem i hj)
      rcases hn : next env st with st1 | ⟨e, st1⟩ | ⟨m, st1⟩
      · have hctx : st1.context = st.context := by
          have hthis := (next_state_fields env st).1
          rw [hn] at hthis
          exact hthis
        rcases hp : st1.population with _ | pop
        · by_cases hv : st1.verbose
          · simp only [runLoop, ht, if_false, Bool.false_eq_true, hn, hp, hv,
              if_true]
            rw [hctx]
            exact hst
          · rcases cb with _ | f
            · simp only [runLoop, ht, if_false, Bool.false_eq_true, hn, hp, hv]
              exact ih _ _ (by simpa [AlgorithmContext.set_current_iteration]
                using hik) hrest
            · simp only [runLoop, ht, if_false, Bool.false_eq_true, hn, hp, hv,
                if_true]
              rw [hctx]
              exact hst
        · rcases cb with _ | f
          · simp only [runLoop, ht, if_false, Bool.false_eq_true, hn, hp]
            exact ih _ _ (by simpa [AlgorithmContext.set_current_iteration]
              using hik) hrest
          · simp only [runLoop, ht, if_false, Bool.false_eq_true, hn, hp]
            exact ih _ _ (by simpa [AlgorithmContext.set_current_iteration]
              using hik) hrest
      · have hctx : st1.context = st.context := by
          have hthis := (next_state_fields env st).1
          rw [hn] at hthis
          exact hthis
        rcases e with ee | ev | ie
        · rcases ee with _ | n
          · simp only [runLoop, ht, if_false, Bool.false_eq_true, hn]
            rw [hctx]
            exact hst
          · simp only [runLoop, ht, if_false, Bool.false_eq_true, hn]
            rw [hctx]
            exact hst
        · simp only [runLoop, ht, if_false, Bool.false_eq_true, hn]
          rw [hctx]
          exact hst
        · simp only [runLoop, ht, if_false, Bool.false_eq_true, hn]
          rw [hctx]
          exact hst
      · have hctx : st1.context = st.context := by
          have hthis := (next_state_fields env st).1
          rw [hn] at hthis
          exact hthis
        simp only [runLoop, ht, if_false, Bool.false_eq_true, hn]
        rw [hctx]
        exact hst

/-- The loop reads the token only at the indices it iterates over. -/
theorem runLoop_token_congr {α σ κ : Type} (env : Env α σ)
    (cb : Option (κ → IterationData α → κ)) (t1 t2 : Nat → Bool) :
    ∀ (l : List Nat) (st : GAState α σ) (c : κ),
      (∀ i ∈ l, t1 i = t2 i) →
      runLoop env t1 cb st c l = runLoop env t2 cb st c l := by
  intro l
  induction l with
  | nil => intro st c _; rfl
  | cons i rest ih =>
    intro st c hl
    have h0 : t1 i = t2 i := hl i (List.mem_cons_self i rest)
    have hrest : ∀ j ∈ rest, t1 j = t2 j :=
      fun j hj => hl j (List.mem_cons_of_mem i hj)
    by_cases ht : t2 i
    · have ht1 : t1 i = true := h0.trans ht
      simp [runLoop, ht, ht1]
    · have ht1 : t1 i = false := by rw [h0]; simpa using ht
      rcases hn : next env st with st1 | ⟨e, st1⟩ | ⟨m, st1⟩
      · rcases hp : st1.population with _ | pop
        · by_cases hv : st1.verbose
          · simp [runLoop, ht, ht1, hn, hp, hv]
          · rcases cb with _ | f
            · simp only [runLoop, ht, ht1, if_false, Bool.false_eq_true, hn,
                hp, hv]
              exact ih _ _ hrest
            · simp [runLoop, ht, ht1, hn, hp, hv]
        · rcases cb with _ | f
          · simp only [runLoop, ht, ht1, if_false, Bool.false_eq_true, hn, hp]
            rw [ih _ _ hrest]
          · simp only [runLoop, ht, ht1, if_false, Bool.false_eq_true, hn, hp]
            rw [ih _ _ hrest]
      · rcases e with ee | ev | ie
        · rcases ee with _ | n
          · simp [runLoop, ht, ht1, hn]
          · simp [runLoop, ht, ht1, hn]
        · simp [runLoop, ht, ht1, hn]
        · simp [runLoop, ht, ht1, hn]
      · simp [runLoop, ht, ht1, hn]

/-- The engine state reached by the loop and the returned value are
independent of the observer callback (and of its captured state): the
callback only receives data, it never feeds back into the population, the
context or the random generator. -/
theorem runLoop_cb_independent {α σ : Type} (env : Env α σ)
    (token : Nat → Bool) {κ1 κ2 : Type}
    (cb1 : Option (κ1 → IterationData α → κ1))
    (cb2 : Option (κ2 → IterationData α → κ2)) :
    ∀ (l : List Nat) (st : GAState α σ) (c1 : κ1) (c2 : κ2),
      (runLoop env token cb1 st c1 l).state =
        (runLoop env token cb2 st c2 l).state ∧
      (runLoop env token cb1 st c1 l).outcome =
        (runLoop env token cb2 st c2 l).outcome := by
  intro l
  induction l with
  | nil => intro st c1 c2; exact ⟨rfl, rfl⟩
  | cons i rest ih =>
    intro st c1 c2
    by_cases ht : token i
    · simp [runLoop, ht]
    · rcases hn : next env st with st1 | ⟨e, st1⟩ | ⟨m, st1⟩
      · have hsome : st1.population.isSome :=
          next_ok_population_isSome env st st1 hn
        rcases hp : st1.population with _ | pop
        · rw [hp] at hsome
          cases hsome
        · rcases cb1 with _ | f1 <;> rcases cb2 with _ | f2
          · simp only [runLoop, ht, if_false, Bool.false_eq_true, hn, hp]
            exact ih _ _ _
          · simp only [runLoop, ht, if_false, Bool.false_eq_true, hn, hp]
            exact ih _ _ _
          · simp only [runLoop, ht, if_false, Bool.false_eq_true, hn, hp]
            exact ih _ _ _
          · simp only [runLoop, ht, if_false, Bool.false_eq_true, hn, hp]
            exact ih _ _ _
      · rcases e with ee | ev | ie
        · rcases ee with _ | n
          · simp [runLoop, ht, hn]
          · simp [runLoop, ht, hn]
        · simp [runLoop, ht, hn]
        · simp [runLoop, ht, hn]
      · simp [runLoop, ht, hn]

/-! The claims about the generational loop. -/

/-- C2: the cancellation token is polled at the top of each loop iteration
before any generation computation — if it is observed set, the loop stops
immediately with a success outcome and a completely unchanged engine state
(no generation is computed, `current_iteration` is not advanced); and when
every poll after index `k` observes the flag set, the recorded
`current_iteration` never exceeds `k`. -/
theorem run_cancellable_cancellation {α σ κ : Type} (env : Env α σ)
    (token : Nat → Bool) (cb : Option (κ → IterationData α → κ)) :
    (∀ (i : Nat) (rest : List Nat) (st : GAState α σ) (c : κ),
      token i = true →
      runLoop env token cb st c (i :: rest) =
        ⟨.ok, st, c, if st.verbose then [Event.cancelledPrint i] else []⟩)
    ∧ (∀ (k n : Nat) (st : GAState α σ) (c : κ),
      (∀ j, k < j → token j = true) →
      st.context.current_iteration ≤ k →
      (runLoop env token cb st c
        (List.range n)).state.context.current_iteration ≤ k) := by
  constructor
  · intro i rest st c ht
    simp [runLoop, ht]
  · intro k n st c hj hst
    refine runLoop_current_le env token cb k _ st c hst ?_
    intro i _ hf
    by_contra hgt
    push_neg at hgt
    have hji := hj i hgt
    rw [hf] at hji
    exact Bool.noConfusion hji

/-- C3: when a generation fails with the distinguished
`EvolveError::EmptyMatingResult`, the loop logs a warning and stops with a
success outcome (the failure is not propagated to the caller); any other
generation error is returned to the caller immediately. -/
theorem run_cancellable_empty_mating {α σ κ : Type} (env : Env α σ)
    (token : Nat → Bool) (cb : Option (κ → IterationData α → κ)) :
    (∀ (i : Nat) (rest : List Nat) (st st1 : GAState α σ) (c : κ),
      token i = false →
      next env st = .err (.evolve .emptyMatingResult) st1 →
      runLoop env token cb st c (i :: rest) =
        ⟨.ok, st1, c, [Event.warnEmptyMating]⟩)
    ∧ (∀ (i : Nat) (rest : List Nat) (st st1 : GAState α σ) (c : κ)
      (e : AlgorithmError),
      token i = false →
      next env st = .err e st1 →
      e ≠ .evolve .emptyMatingResult →
      runLoop env token cb st c (i :: rest) = ⟨.error e, st1, c, []⟩) := by
  constructor
  · intro i rest st st1 c ht hn
    simp [runLoop, ht, hn]
  · intro i rest st st1 c e ht hn hne
    rcases e with ee | ev | ie
    · rcases ee with _ | nn
      · exact absurd rfl hne
      · simp [runLoop, ht, hn]
    · simp [runLoop, ht, hn]
    · simp [runLoop, ht, hn]

/-- C4: on a successful generation at loop index `i`, the observer callback
is invoked with `IterationData` whose `iteration` field equals `i + 1`,
while the context records `current_iteration := i` (the pre-increment loop
index); hence the recorded value plus one equals the reported value. -/
theorem run_cancellable_callback_iteration {α σ κ : Type} (env : Env α σ)
    (token : Nat → Bool) (f : κ → IterationData α → κ) (i : Nat)
    (rest : List Nat) (st st1 : GAState α σ) (pop : Population α) (c : κ)
    (ht : token i = false) (hn : next env st = .ok st1)
    (hp : st1.population = some pop) :
    runLoop env token (some f) st c (i :: rest) =
      (let st2 : GAState α σ :=
        { st1 with context := st1.context.set_current_iteration i };
       let res := runLoop env token (some f) st2 (f c ⟨i + 1, pop⟩) rest;
       ⟨res.outcome, res.state, res.cbState,
        (if st1.verbose then [Event.progressPrint (i + 1)] else []) ++
          Event.callbackCall (i + 1) :: res.trace⟩)
    ∧ (st1.context.set_current_iteration i).current_iteration + 1 = i + 1 := by
  constructor
  · simp [runLoop, ht, hn, hp]
  · simp [AlgorithmContext.set_current_iteration]

/-- C7: `run()` runs to completion with no cancellation and no observer —
for every token that is never observed set, it returns the same value and
reaches the same final state (population, context, random generator) as
`run_cancellable` with that token and no callback. -/
theorem run_equiv_cancellable_false {α σ : Type} (env : Env α σ)
    (st : GAState α σ) (token : Nat → Bool)
    (hfalse : ∀ i, token i = false) :
    run env st =
      run_cancellable env token
        (none : Option (Unit → IterationData α → Unit)) st () := by
  unfold run run_cancellable
  rcases hi : env.initialization st.context st.rng with ⟨res, rng1⟩
  rcases res with e | pop
  · simp only [hi]
  · simp only [hi]
    exact runLoop_token_congr env _ (fun _ => false) token _ _ _
      (fun i _ => (hfalse i).symm)

/-- C8: supplying an observer callback does not change the run — for any
callback function and initial callback state, `run_cancellable` returns the
same value and reaches the same final engine state (population, context,
random generator) as the run with no callback. -/
theorem run_cancellable_callback_noninterference {α σ κ : Type}
    (env : Env α σ) (token : Nat → Bool) (f : κ → IterationData α → κ)
    (c0 : κ) (st : GAState α σ) :
    (run_cancellable env token (some f) st c0).state =
      (run_cancellable env token
        (none : Option (Unit → IterationData α → Unit)) st ()).state
    ∧ (run_cancellable env token (some f) st c0).outcome =
      (run_cancellable env token
        (none : Option (Unit → IterationData α → Unit)) st ()).outcome := by
  unfold run_cancellable
  rcases hi : env.initialization st.context st.rng with ⟨res, rng1⟩
  rcases res with e | pop
  · simp [hi]
  · simp only [hi]
    exact runLoop_cb_independent env token (some f) none _ _ _ _

/-- C9: a generation step is atomic on failure — whenever `next()` returns
an error, the stored population and the context are unchanged (the
population is only replaced after evolve, concatenation, evaluation and
survival have all succeeded), and the loop does not update
`current_iteration` for the failed generation. -/
theorem generation_failure_atomicity {α σ : Type} (env : Env α σ) :
    (∀ (st st1 : GAState α σ) (e : AlgorithmError),
      next env st = .err e st1 →
      st1.population = st.population ∧ st1.context = st.context)
    ∧ (∀ (κ : Type) (token : Nat → Bool)
      (cb : Option (κ → IterationData α → κ)) (st st1 : GAState α σ) (c : κ)
      (i : Nat) (rest : List Nat) (e : AlgorithmError),
      token i = false → next env st = .err e st1 →
      (runLoop env token cb st c
        (i :: rest)).state.context.current_iteration
        = st.context.current_iteration) := by
  constructor
  · intro st st1 e h
    exact ⟨(next_err_preserves_state env st st1 e h).1,
      (next_err_preserves_state env st st1 e h).2.1⟩
  · intro κ token cb st st1 c i rest e ht hn
    have hctx : st1.context = st.context :=
      (next_err_preserves_state env st st1 e hn).2.1
    rcases e with ee | ev | ie
    · rcases ee with _ | nn
      · simp [runLoop, ht, hn, hctx]
      · simp [runLoop, ht, hn, hctx]
    · simp [runLoop, ht, hn, hctx]
    · simp [runLoop, ht, hn, hctx]

/-! Witnesses exercising the theorems on closed inputs. -/

/-- Witness for C1 at `env0`, `st0`. -/
theorem next_generation_pipeline_witness :
    next env0 st0 =
      NextResult.ok { st0 with
        population := some (env0.survive evalPop0 st0.context.population_size 1).1,
        rng := (env0.survive evalPop0 st0.context.population_size 1).2 }
    ∧ (Matrix.mk pop0.genes.ncols (pop0.genes.rows ++ off0.rows)).nrows
        = pop0.genes.nrows + off0.nrows
    ∧ (off0.nrows = st0.context.num_offsprings →
       pop0.genes.nrows = st0.context.population_size →
       (Matrix.mk pop0.genes.ncols (pop0.genes.rows ++ off0.rows)).nrows
         = st0.context.population_size + st0.context.num_offsprings) :=
  next_generation_pipeline env0 st0 pop0 off0 1 evalPop0 rfl rfl rfl rfl rfl

/-- Witness for C2: with a token that is always observed set, the loop stops
at once with an unchanged state, and `current_iteration` stays at 0. -/
theorem run_cancellable_cancellation_witness :
    runLoop env0 (fun _ => true)
      (none : Option (Unit → IterationData Nat → Unit)) st0 () [0, 1, 2] =
      ⟨.ok, st0, (), []⟩
    ∧ (runLoop env0 (fun _ => true)
        (none : Option (Unit → IterationData Nat → Unit)) st0 ()
        (List.range 5)).state.context.current_iteration ≤ 0 := by
  constructor
  · have h := (run_cancellable_cancellation env0 (fun _ => true)
      (none : Option (Unit → IterationData Nat → Unit))).1 0 [1, 2] st0 () rfl
    simpa [st0] using h
  · exact (run_cancellable_cancellation env0 (fun _ => true)
      (none : Option (Unit → IterationData Nat → Unit))).2 0 5 st0 ()
      (fun j _ => rfl) (by decide)

/-- Witness for C3: an `EmptyMatingResult` generation stops the loop with a
success outcome and a warning; a non-distinguished evolve error is returned
to the caller. -/
theorem run_cancellable_empty_mating_witness :
    runLoop envEmptyMating (fun _ => false)
      (none : Option (Unit → IterationData Nat → Unit)) st0 () [0, 1] =
      ⟨.ok, ⟨some pop0, ctx0, false, 1⟩, (), [Event.warnEmptyMating]⟩
    ∧ runLoop envOtherError (fun _ => false)
      (none : Option (Unit → IterationData Nat → Unit)) st0 () [0, 1] =
      ⟨.error (.evolve (.other 7)), ⟨some pop0, ctx0, false, 1⟩, (), []⟩ :=
  ⟨(run_cancellable_empty_mating envEmptyMating (fun _ => false)
      (none : Option (Unit → IterationData Nat → Unit))).1 0 [1] st0
      ⟨some pop0, ctx0, false, 1⟩ () rfl rfl,
   (run_cancellable_empty_mating envOtherError (fun _ => false)
      (none : Option (Unit → IterationData Nat → Unit))).2 0 [1] st0
      ⟨some pop0, ctx0, false, 1⟩ () (.evolve (.other 7)) rfl rfl (by decide)⟩

/-- Witness for C4 at `env0`, `st0`, loop index 0, with the recording
callback. -/
theorem run_cancellable_callback_iteration_witness :
    runLoop env0 (fun _ => false) (some recordCb) st0 [] [0] =
      (let st2 : GAState Nat Nat :=
        { stepSt0 with context := stepSt0.context.set_current_iteration 0 };
       let res := runLoop env0 (fun _ => false) (some recordCb) st2
         (recordCb [] ⟨0 + 1, survPop0⟩) [];
       ⟨res.outcome, res.state, res.cbState,
        (if stepSt0.verbose then [Event.progressPrint (0 + 1)] else []) ++
          Event.callbackCall (0 + 1) :: res.trace⟩)
    ∧ (stepSt0.context.set_current_iteration 0).current_iteration + 1
        = 0 + 1 :=
  run_cancellable_callback_iteration env0 (fun _ => false) recordCb 0 [] st0
    stepSt0 survPop0 [] rfl rfl rfl

/-- Witness for C5 at `envExact` (whose survival operator honours the
size contract), `st0`. -/
theorem next_population_size_invariant_witness :
    ∃ p, (⟨some exactPop0, ctx0, false, 8⟩ : GAState Nat Nat).population
        = some p ∧ p.genes.nrows = st0.context.population_size :=
  next_population_size_invariant envExact
    (fun p t r => by simp [envExact, env0, Matrix.nrows]) st0
    ⟨some exactPop0, ctx0, false, 8⟩ rfl

/-- Witness for C6: `envBadCols` (3-column offspring against `num_vars = 4`)
trips the assertion, while `env0` (4-column offspring) can never reach the
assertion-failure branch. -/
theorem next_offspring_ncols_assertion_witness :
    next envBadCols st0 = .panicked assertMsg { st0 with rng := 1 }
    ∧ next env0 st0 ≠ .panicked assertMsg st0 :=
  ⟨(next_offspring_ncols_assertion envBadCols).1 st0 pop0
      ⟨3, List.replicate 3 (List.replicate 3 0)⟩ 1 rfl rfl (by decide),
   (next_offspring_ncols_assertion env0).2 st0
      (fun p k m rng off rng2 h => by
        have h2 : ((Except.ok (⟨4, List.replicate k (List.replicate 4 rng)⟩ :
            Matrix Nat) : Except EvolveError (Matrix Nat)), rng + 1) =
            (Except.ok off, rng2) := h
        injection h2 with h3 h4
        injection h3 with h5
        rw [← h5]
        rfl) st0⟩

/-- Witness for C7 at `env0`, `st0`, with the constantly false token. -/
theorem run_equiv_cancellable_false_witness :
    run env0 st0 =
      run_cancellable env0 (fun _ => false)
        (none : Option (Unit → IterationData Nat → Unit)) st0 () :=
  run_equiv_cancellable_false env0 st0 (fun _ => false) (fun _ => rfl)

/-- Witness for C9 at `envEvalFail` (whose evaluation stage fails), `st0`:
the failed generation leaves population, context and `current_iteration`
unchanged. -/
theorem generation_failure_atomicity_witness :
    ((⟨some pop0, ctx0, false, 1⟩ : GAState Nat Nat).population
        = st0.population
      ∧ (⟨some pop0, ctx0, false, 1⟩ : GAState Nat Nat).context = st0.context)
    ∧ (runLoop envEvalFail (fun _ => false)
        (none : Option (Unit → IterationData Nat → Unit)) st0 ()
        [0]).state.context.current_iteration
        = st0.context.current_iteration :=
  ⟨(generation_failure_atomicity envEvalFail).1 st0
      ⟨some pop0, ctx0, false, 1⟩ (.evaluator (.shapeError 1)) rfl,
   (generation_failure_atomicity envEvalFail).2 Unit (fun _ => false) none
      st0 ⟨some pop0, ctx0, false, 1⟩ () 0 [] (.evaluator (.shapeError 1))
      rfl rfl⟩

/-- Witness for C10 at `env0`, `st0`: the step is the `max_attempts = 200`
instance, and an evolve operator agreeing with `env0.evolve` only at
`max_attempts = 200` yields the same step. -/
theorem next_hardcoded_max_attempts_witness :
    next env0 st0 = nextWithAttempts env0 200 st0
    ∧ next { env0 with evolve := evolveAlt } st0 = next env0 st0 :=
  ⟨(@next_hardcoded_max_attempts Nat Nat).1 env0 st0,
   (@next_hardcoded_max_attempts Nat Nat).2 env0 evolveAlt st0
      (fun p rng => by simp [evolveAlt])⟩

end Moors
